import Mathlib

/-!
Shallow embedding of the spokestack-android JNI audio wrappers.

Source files embedded:
  * src/spokestack/jni/vad.cpp  (webrtc VoiceActivityDetector wrapper)
  * src/spokestack/jni/agc.cpp  (webrtc AutomaticGainControl wrapper)
  * src/jni/ans.cpp             (webrtc AcousticNoiseSuppressor wrapper)
  * src/jni/vad.cpp             (legacy libfvad VADTrigger wrapper)

The underlying DSP engines (WebRtcVad_*, WebRtcAgc_*, WebRtcNsx_*, fvad_*)
are external libraries, out of scope of the repository: each wrapper is
parameterised over an engine record whose fields model the engine entry
points it calls.  Pointers/handles are modelled as Nat, with 0 as NULL.
Sample memory is modelled as a total map from element addresses (16-bit
sample granularity) to sample values; a direct byte buffer is a pair of
such a memory and a base element address.  jint values are modelled as Int,
and the C integer division of a jint by 2 (truncation toward zero) as
Int.tdiv.  Each create wrapper additionally returns the list of engine
calls it performed, in order, so that rollback (free) behaviour and the
arguments of configuration calls are visible to theorems.
-/

namespace Spokestack

/-- Sample memory: a total map from element addresses to 16-bit sample values. -/
def Mem : Type := Nat → Int

/-! ## VoiceActivityDetector wrapper, src/spokestack/jni/vad.cpp -/

/-- Engine surface used by the VoiceActivityDetector wrapper.
WebRtcVad_Create writes a pointer through its out parameter and returns a
status; the pair holds (status, value left in the out parameter, the
wrapper having initialised it to NULL).  WebRtcVad_Process takes the frame
as a const pointer, so it is modelled without a memory result. -/
structure VadEngine where
  WebRtcVad_Create : Int × Nat
  WebRtcVad_Init : Nat → Int
  WebRtcVad_set_mode : Nat → Int → Int
  WebRtcVad_Process : Nat → Int → Mem → Nat → Int → Int

/-- Engine calls performed by the VAD wrapper, in order. -/
inductive VadEvent where
  | create (status : Int) (p : Nat)
  | init (p : Nat) (status : Int)
  | setMode (p : Nat) (mode status : Int)
  | free (p : Nat)
deriving DecidableEq

/-- VoiceActivityDetector_create, src/spokestack/jni/vad.cpp lines 26-46:
allocate, initialise, set mode; on any non-zero status free the engine and
return NULL.  Returns the handle and the engine-call trace. -/
def Java_io_spokestack_spokestack_webrtc_VoiceActivityDetector_create
    (E : VadEngine) (mode : Int) : Nat × List VadEvent :=
  let r0 := E.WebRtcVad_Create.1
  let vad := E.WebRtcVad_Create.2
  if r0 = 0 then
    let r1 := E.WebRtcVad_Init vad
    if r1 = 0 then
      let r2 := E.WebRtcVad_set_mode vad mode
      if r2 = 0 then
        (vad, [VadEvent.create r0 vad, VadEvent.init vad r1, VadEvent.setMode vad mode r2])
      else
        (0, [VadEvent.create r0 vad, VadEvent.init vad r1, VadEvent.setMode vad mode r2,
             VadEvent.free vad])
    else
      (0, [VadEvent.create r0 vad, VadEvent.init vad r1, VadEvent.free vad])
  else
    (vad, [VadEvent.create r0 vad])

/-- VoiceActivityDetector_destroy, src/spokestack/jni/vad.cpp lines 54-60. -/
def Java_io_spokestack_spokestack_webrtc_VoiceActivityDetector_destroy
    (vad : Nat) : List VadEvent :=
  [VadEvent.free vad]

/-- VoiceActivityDetector_process, src/spokestack/jni/vad.cpp lines 73-83:
resolve the buffer address and call WebRtcVad_Process with length / 2
samples.  WebRtcVad_Process takes a const frame pointer, so the call
leaves memory unchanged; the length and rate are passed by value. -/
def Java_io_spokestack_spokestack_webrtc_VoiceActivityDetector_process
    (E : VadEngine) (vad : Nat) (rate : Int) (mem : Mem) (base : Nat)
    (length : Int) : Int × Mem :=
  (E.WebRtcVad_Process vad rate mem base (Int.tdiv length 2), mem)

/-! ## AutomaticGainControl wrapper, src/spokestack/jni/agc.cpp -/

/-- WebRtcAgc_config_t from the external gain_control.h header: the three
fields set by the wrapper after the memset to zero. -/
structure WebRtcAgc_config_t where
  targetLevelDbfs : Int
  limiterEnable : Int
  compressionGaindB : Int
deriving DecidableEq

/-- Modelled from the spec: engine-defined boolean constant of the external
gain_control.h header (the header is not part of this repository). -/
def kAgcFalse : Int := 0

/-- Modelled from the spec: engine-defined boolean constant of the external
gain_control.h header. -/
def kAgcTrue : Int := 1

/-- Modelled from the spec: the fixed-digital gain mode constant of the
external gain_control.h header; only its identity matters here. -/
def kAgcModeFixedDigital : Int := 3

/-- Result of a WebRtcAgc_Process engine call: status, the value written
through the outMicLevel out parameter, the value written through the
saturationWarning out parameter, and the memory after the call. -/
structure AgcProcessOut where
  status : Int
  outMicLevel : Int
  saturationWarning : Int
  mem : Mem

/-- Engine surface used by the AutomaticGainControl wrapper.
WebRtcAgc_Init takes (agc, minLevel, maxLevel, agcMode, fs).
WebRtcAgc_Process takes (agc, memory, inNear address, inNearH address,
samples, out address, outH address, inMicLevel, echo). -/
structure AgcEngine where
  WebRtcAgc_Create : Int × Nat
  WebRtcAgc_Init : Nat → Int → Int → Int → Int → Int
  WebRtcAgc_set_config : Nat → WebRtcAgc_config_t → Int
  WebRtcAgc_Process : Nat → Mem → Nat → Option Nat → Int → Nat → Option Nat → Int → Int →
    AgcProcessOut

/-- Engine calls performed by the AGC wrapper, in order. -/
inductive AgcEvent where
  | create (status : Int) (p : Nat)
  | init (p : Nat) (minLevel maxLevel agcMode fs status : Int)
  | setConfig (p : Nat) (cfg : WebRtcAgc_config_t) (status : Int)
  | free (p : Nat)
deriving DecidableEq

/-- The module variable of src/spokestack/jni/agc.cpp line 17:
static int32_t miclevel = 128.  Process-wide, shared by all AGC handles. -/
structure AgcGlobals where
  miclevel : Int
deriving DecidableEq

/-- Static initialisation of the module variable: miclevel = 128 at
process start (src/spokestack/jni/agc.cpp line 17). -/
def agcGlobalsInit : AgcGlobals := ⟨128⟩

/-- AutomaticGainControl_create, src/spokestack/jni/agc.cpp lines 31-59:
allocate, initialise with the engine constants (0, 100,
kAgcModeFixedDigital) and the caller rate, then apply the caller
configuration; on any non-zero status free the engine and return NULL.
The body never references the miclevel module variable. -/
def Java_io_spokestack_spokestack_webrtc_AutomaticGainControl_create
    (E : AgcEngine) (rate targetLeveldBFS compressionGaindB : Int)
    (limiterEnable : Bool) : Nat × List AgcEvent :=
  let r0 := E.WebRtcAgc_Create.1
  let agc := E.WebRtcAgc_Create.2
  if r0 = 0 then
    let r1 := E.WebRtcAgc_Init agc 0 100 kAgcModeFixedDigital rate
    if r1 = 0 then
      let cfg : WebRtcAgc_config_t :=
        { targetLevelDbfs := targetLeveldBFS
          limiterEnable := if limiterEnable then kAgcTrue else kAgcFalse
          compressionGaindB := compressionGaindB }
      let r2 := E.WebRtcAgc_set_config agc cfg
      if r2 = 0 then
        (agc, [AgcEvent.create r0 agc, AgcEvent.init agc 0 100 kAgcModeFixedDigital rate r1,
               AgcEvent.setConfig agc cfg r2])
      else
        (0, [AgcEvent.create r0 agc, AgcEvent.init agc 0 100 kAgcModeFixedDigital rate r1,
             AgcEvent.setConfig agc cfg r2, AgcEvent.free agc])
    else
      (0, [AgcEvent.create r0 agc, AgcEvent.init agc 0 100 kAgcModeFixedDigital rate r1,
           AgcEvent.free agc])
  else
    (agc, [AgcEvent.create r0 agc])

/-- AutomaticGainControl_destroy, src/spokestack/jni/agc.cpp lines 67-73.
The body never references the miclevel module variable. -/
def Java_io_spokestack_spokestack_webrtc_AutomaticGainControl_destroy
    (agc : Nat) : List AgcEvent :=
  [AgcEvent.free agc]

/-- AutomaticGainControl_process, src/spokestack/jni/agc.cpp lines 85-105:
resolve the buffer address, call WebRtcAgc_Process with length / 2 samples,
the frame address as both the near input and the output, NULL for the
high-band pointers, the shared miclevel module variable as inMicLevel and
its address as outMicLevel, echo 0, and a local saturation flag that is
discarded.  Returns (status, updated module state, updated memory). -/
def Java_io_spokestack_spokestack_webrtc_AutomaticGainControl_process
    (E : AgcEngine) (g : AgcGlobals) (agc : Nat) (mem : Mem) (base : Nat)
    (length : Int) : Int × AgcGlobals × Mem :=
  let out := E.WebRtcAgc_Process agc mem base none (Int.tdiv length 2) base none g.miclevel 0
  (out.status, ⟨out.outMicLevel⟩, out.mem)

/-- Whole-module operation on the AGC wrapper, used to track the shared
miclevel state across a handle lifecycle. -/
inductive AgcOp where
  | create (rate targetLeveldBFS compressionGaindB : Int) (limiterEnable : Bool)
  | destroy (agc : Nat)
  | process (agc : Nat) (mem : Mem) (base : Nat) (length : Int)

/-- Whether an operation is a process call. -/
def AgcOp.isProc : AgcOp → Bool
  | AgcOp.process _ _ _ _ => true
  | _ => false

/-- Effect of one AGC wrapper call on the module state: create and destroy
never reference the miclevel variable (their bodies in
src/spokestack/jni/agc.cpp do not mention it), process stores through its
address. -/
def agcStep (E : AgcEngine) (g : AgcGlobals) : AgcOp → AgcGlobals
  | AgcOp.create _ _ _ _ => g
  | AgcOp.destroy _ => g
  | AgcOp.process agc mem base length =>
      (Java_io_spokestack_spokestack_webrtc_AutomaticGainControl_process
        E g agc mem base length).2.1

/-- Module state after a sequence of AGC wrapper calls. -/
def runAgcOps (E : AgcEngine) (ops : List AgcOp) (g : AgcGlobals) : AgcGlobals :=
  ops.foldl (agcStep E) g

/-! ## AcousticNoiseSuppressor wrapper, src/jni/ans.cpp -/

/-- Engine surface used by the AcousticNoiseSuppressor wrapper.
WebRtcNsx_Process takes (handle, memory, speechFrame address,
speechFrameHB address, outFrame address, outFrameHB address) and returns
(status, memory after the call); NULL pointers are none. -/
structure AnsEngine where
  WebRtcNsx_Create : Int × Nat
  WebRtcNsx_Init : Nat → Int → Int
  WebRtcNsx_set_policy : Nat → Int → Int
  WebRtcNsx_Process : Nat → Mem → Option Nat → Option Nat → Option Nat → Option Nat →
    Int × Mem

/-- Engine calls performed by the ANS wrapper, in order. -/
inductive AnsEvent where
  | create (status : Int) (p : Nat)
  | init (p : Nat) (fs status : Int)
  | setPolicy (p : Nat) (policy status : Int)
  | free (p : Nat)
deriving DecidableEq

/-- AcousticNoiseSuppressor_create, src/jni/ans.cpp lines 26-47:
allocate, initialise with the caller sample rate, set the policy; on any
non-zero status free the engine and return NULL. -/
def Java_io_spokestack_spokestack_webrtc_AcousticNoiseSuppressor_create
    (E : AnsEngine) (sampleRate policy : Int) : Nat × List AnsEvent :=
  let r0 := E.WebRtcNsx_Create.1
  let ans := E.WebRtcNsx_Create.2
  if r0 = 0 then
    let r1 := E.WebRtcNsx_Init ans sampleRate
    if r1 = 0 then
      let r2 := E.WebRtcNsx_set_policy ans policy
      if r2 = 0 then
        (ans, [AnsEvent.create r0 ans, AnsEvent.init ans sampleRate r1,
               AnsEvent.setPolicy ans policy r2])
      else
        (0, [AnsEvent.create r0 ans, AnsEvent.init ans sampleRate r1,
             AnsEvent.setPolicy ans policy r2, AnsEvent.free ans])
    else
      (0, [AnsEvent.create r0 ans, AnsEvent.init ans sampleRate r1, AnsEvent.free ans])
  else
    (ans, [AnsEvent.create r0 ans])

/-- AcousticNoiseSuppressor_destroy, src/jni/ans.cpp lines 55-61. -/
def Java_io_spokestack_spokestack_webrtc_AcousticNoiseSuppressor_destroy
    (ans : Nat) : List AnsEvent :=
  [AnsEvent.free ans]

/-- C semantics of frame += offset / sizeof(int16_t) in src/jni/ans.cpp
line 80: the jint offset is converted to the unsigned type of sizeof
(64-bit size_t, so reduction modulo 2 to the 64), then divided by 2,
giving the element advance applied to the frame pointer. -/
def ansOffsetElems (offset : Int) : Nat :=
  (offset.emod (2 ^ 64)).toNat / 2

/-- AcousticNoiseSuppressor_process, src/jni/ans.cpp lines 72-82:
resolve the buffer address, advance it by offset / sizeof(int16_t)
elements, and call WebRtcNsx_Process with the advanced address as both
the speech frame and the output frame, NULL for the high-band pointers. -/
def Java_io_spokestack_spokestack_webrtc_AcousticNoiseSuppressor_process
    (E : AnsEngine) (ans : Nat) (mem : Mem) (base : Nat) (offset : Int) :
    Int × Mem :=
  let frame := base + ansOffsetElems offset
  E.WebRtcNsx_Process ans mem (some frame) none (some frame) none

/-! ## Legacy libfvad VADTrigger wrapper, src/jni/vad.cpp -/

/-- Engine surface used by the legacy VADTrigger wrapper.  fvad_new
returns a pointer directly (NULL on failure); the setters return status
codes; fvad_process takes a const frame pointer. -/
structure FvadEngine where
  fvad_new : Nat
  fvad_set_mode : Nat → Int → Int
  fvad_set_sample_rate : Nat → Int → Int
  fvad_process : Nat → Mem → Nat → Int → Int

/-- Engine calls performed by the VADTrigger wrapper, in order. -/
inductive FvadEvent where
  | newEngine (p : Nat)
  | setMode (p : Nat) (mode status : Int)
  | setSampleRate (p : Nat) (rate status : Int)
  | free (p : Nat)
deriving DecidableEq

/-- VADTrigger_create, src/jni/vad.cpp lines 7-17: calls fvad_new,
fvad_set_mode, fvad_set_sample_rate in sequence, ignoring the setter
status codes, and returns the pointer from fvad_new unconditionally. -/
def Java_com_pylon_spokestack_libfvad_VADTrigger_create
    (E : FvadEngine) (mode rate : Int) : Nat × List FvadEvent :=
  let vad := E.fvad_new
  let r1 := E.fvad_set_mode vad mode
  let r2 := E.fvad_set_sample_rate vad rate
  (vad, [FvadEvent.newEngine vad, FvadEvent.setMode vad mode r1,
         FvadEvent.setSampleRate vad rate r2])

/-- VADTrigger_destroy, src/jni/vad.cpp lines 19-25. -/
def Java_com_pylon_spokestack_libfvad_VADTrigger_destroy
    (vad : Nat) : List FvadEvent :=
  [FvadEvent.free vad]

/-- VADTrigger_process, src/jni/vad.cpp lines 27-36: resolve the buffer
address and call fvad_process with length / 2 samples; no sample rate is
passed (it was fixed at creation).  fvad_process takes a const frame
pointer, so the call leaves memory unchanged. -/
def Java_com_pylon_spokestack_libfvad_VADTrigger_process
    (E : FvadEngine) (vad : Nat) (mem : Mem) (base : Nat) (length : Int) :
    Int × Mem :=
  (E.fvad_process vad mem base (Int.tdiv length 2), mem)

/-! ## Sequences of process calls

The VAD and ANS wrappers keep no state of their own between calls; a
sequence of process calls is a sequence of independent invocations, each
on its own caller-supplied buffer.  The AGC wrapper threads the shared
module state, handled by runAgcOps above. -/

/-- Arguments of one VoiceActivityDetector process call. -/
structure VadCall where
  vad : Nat
  rate : Int
  mem : Mem
  base : Nat
  length : Int

/-- Results of a sequence of VAD process calls. -/
def runVadCalls (E : VadEngine) (cs : List VadCall) : List Int :=
  cs.map fun c =>
    (Java_io_spokestack_spokestack_webrtc_VoiceActivityDetector_process
      E c.vad c.rate c.mem c.base c.length).1

/-- Arguments of one AcousticNoiseSuppressor process call. -/
structure AnsCall where
  ans : Nat
  mem : Mem
  base : Nat
  offset : Int

/-- Results of a sequence of ANS process calls. -/
def runAnsCalls (E : AnsEngine) (cs : List AnsCall) : List Int :=
  cs.map fun c =>
    (Java_io_spokestack_spokestack_webrtc_AcousticNoiseSuppressor_process
      E c.ans c.mem c.base c.offset).1

/-! ## Concrete engine instances used to evaluate the wrappers -/

/-- All-zero sample memory. -/
def memZero : Mem := fun _ => 0

/-- VAD engine whose allocation succeeds with pointer 7 and whose
initialisation step fails. -/
def vadInitFailEngine : VadEngine where
  WebRtcVad_Create := (0, 7)
  WebRtcVad_Init := fun _ => -1
  WebRtcVad_set_mode := fun _ _ => 0
  WebRtcVad_Process := fun _ _ _ _ n => n

/-- ANS engine whose allocation succeeds with pointer 9 and whose policy
step fails. -/
def ansPolicyFailEngine : AnsEngine where
  WebRtcNsx_Create := (0, 9)
  WebRtcNsx_Init := fun _ _ => 0
  WebRtcNsx_set_policy := fun _ _ => -1
  WebRtcNsx_Process := fun _ m _ _ _ _ => (0, m)

/-- ANS engine for which every step succeeds and processing leaves memory
unchanged. -/
def ansOkEngine : AnsEngine where
  WebRtcNsx_Create := (0, 9)
  WebRtcNsx_Init := fun _ _ => 0
  WebRtcNsx_set_policy := fun _ _ => 0
  WebRtcNsx_Process := fun _ m _ _ _ _ => (0, m)

/-- AGC engine for which every step succeeds (pointer 5) and processing
reports success, echoes the mic level and leaves memory unchanged. -/
def agcOkEngine : AgcEngine where
  WebRtcAgc_Create := (0, 5)
  WebRtcAgc_Init := fun _ _ _ _ _ => 0
  WebRtcAgc_set_config := fun _ _ => 0
  WebRtcAgc_Process := fun _ m _ _ _ _ _ inMic _ => ⟨0, inMic, 0, m⟩

/-- AGC engine whose configuration step fails. -/
def agcCfgFailEngine : AgcEngine where
  WebRtcAgc_Create := (0, 5)
  WebRtcAgc_Init := fun _ _ _ _ _ => 0
  WebRtcAgc_set_config := fun _ _ => -1
  WebRtcAgc_Process := fun _ m _ _ _ _ _ inMic _ => ⟨0, inMic, 0, m⟩

/-- AGC engine whose process call reports the incoming mic level as its
status and bumps the level estimate by one. -/
def agcLevelEngine : AgcEngine where
  WebRtcAgc_Create := (0, 5)
  WebRtcAgc_Init := fun _ _ _ _ _ => 0
  WebRtcAgc_set_config := fun _ _ => 0
  WebRtcAgc_Process := fun _ m _ _ _ _ _ inMic _ => ⟨inMic, inMic + 1, 0, m⟩

/-- AGC engine whose process call fails while leaving the mic level
where it was. -/
def agcErrKeepEngine : AgcEngine where
  WebRtcAgc_Create := (0, 5)
  WebRtcAgc_Init := fun _ _ _ _ _ => 0
  WebRtcAgc_set_config := fun _ _ => 0
  WebRtcAgc_Process := fun _ m _ _ _ _ _ inMic _ => ⟨-1, inMic, 0, m⟩

/-- libfvad engine whose allocation returns pointer 5 and whose mode
setter fails with status -1. -/
def fvadModeFailEngine : FvadEngine where
  fvad_new := 5
  fvad_set_mode := fun _ _ => -1
  fvad_set_sample_rate := fun _ _ => 0
  fvad_process := fun _ _ _ n => n

/-! ## Theorems -/

/-- Claim C1: for every component create operation (VoiceActivityDetector,
AutomaticGainControl, AcousticNoiseSuppressor), if any sub-step of the
allocate/initialize/configure sequence returns a non-zero status, the
partially built engine is freed and the failure sentinel (null/zero
handle) is returned; a non-null handle is returned only when every
sub-step returned zero.  The hypothesis on each engine is the allocation
contract: when allocation fails the out parameter is left NULL, as the
wrapper initialised it.  The freed-engine conjunct is conditional on the
allocation step having succeeded, since before that no engine exists. -/
theorem create_all_or_nothing :
    (∀ (E : VadEngine) (mode : Int),
      (E.WebRtcVad_Create.1 ≠ 0 → E.WebRtcVad_Create.2 = 0) →
      ((E.WebRtcVad_Create.1 ≠ 0 ∨ E.WebRtcVad_Init E.WebRtcVad_Create.2 ≠ 0 ∨
          E.WebRtcVad_set_mode E.WebRtcVad_Create.2 mode ≠ 0) →
        (Java_io_spokestack_spokestack_webrtc_VoiceActivityDetector_create E mode).1 = 0 ∧
          (E.WebRtcVad_Create.1 = 0 →
            VadEvent.free E.WebRtcVad_Create.2 ∈
              (Java_io_spokestack_spokestack_webrtc_VoiceActivityDetector_create E mode).2)) ∧
      ((Java_io_spokestack_spokestack_webrtc_VoiceActivityDetector_create E mode).1 ≠ 0 →
        E.WebRtcVad_Create.1 = 0 ∧ E.WebRtcVad_Init E.WebRtcVad_Create.2 = 0 ∧
          E.WebRtcVad_set_mode E.WebRtcVad_Create.2 mode = 0)) ∧
    (∀ (E : AnsEngine) (sampleRate policy : Int),
      (E.WebRtcNsx_Create.1 ≠ 0 → E.WebRtcNsx_Create.2 = 0) →
      ((E.WebRtcNsx_Create.1 ≠ 0 ∨ E.WebRtcNsx_Init E.WebRtcNsx_Create.2 sampleRate ≠ 0 ∨
          E.WebRtcNsx_set_policy E.WebRtcNsx_Create.2 policy ≠ 0) →
        (Java_io_spokestack_spokestack_webrtc_AcousticNoiseSuppressor_create
            E sampleRate policy).1 = 0 ∧
          (E.WebRtcNsx_Create.1 = 0 →
            AnsEvent.free E.WebRtcNsx_Create.2 ∈
              (Java_io_spokestack_spokestack_webrtc_AcousticNoiseSuppressor_create
                E sampleRate policy).2)) ∧
      ((Java_io_spokestack_spokestack_webrtc_AcousticNoiseSuppressor_create
          E sampleRate policy).1 ≠ 0 →
        E.WebRtcNsx_Create.1 = 0 ∧ E.WebRtcNsx_Init E.WebRtcNsx_Create.2 sampleRate = 0 ∧
          E.WebRtcNsx_set_policy E.WebRtcNsx_Create.2 policy = 0)) ∧
    (∀ (E : AgcEngine) (rate targetLeveldBFS compressionGaindB : Int) (limiterEnable : Bool),
      (E.WebRtcAgc_Create.1 ≠ 0 → E.WebRtcAgc_Create.2 = 0) →
      ((E.WebRtcAgc_Create.1 ≠ 0 ∨
          E.WebRtcAgc_Init E.WebRtcAgc_Create.2 0 100 kAgcModeFixedDigital rate ≠ 0 ∨
          E.WebRtcAgc_set_config E.WebRtcAgc_Create.2
            ⟨targetLeveldBFS, if limiterEnable then kAgcTrue else kAgcFalse,
              compressionGaindB⟩ ≠ 0) →
        (Java_io_spokestack_spokestack_webrtc_AutomaticGainControl_create
            E rate targetLeveldBFS compressionGaindB limiterEnable).1 = 0 ∧
          (E.WebRtcAgc_Create.1 = 0 →
            AgcEvent.free E.WebRtcAgc_Create.2 ∈
              (Java_io_spokestack_spokestack_webrtc_AutomaticGainControl_create
                E rate targetLeveldBFS compressionGaindB limiterEnable).2)) ∧
      ((Java_io_spokestack_spokestack_webrtc_AutomaticGainControl_create
          E rate targetLeveldBFS compressionGaindB limiterEnable).1 ≠ 0 →
        E.WebRtcAgc_Create.1 = 0 ∧
          E.WebRtcAgc_Init E.WebRtcAgc_Create.2 0 100 kAgcModeFixedDigital rate = 0 ∧
          E.WebRtcAgc_set_config E.WebRtcAgc_Create.2
            ⟨targetLeveldBFS, if limiterEnable then kAgcTrue else kAgcFalse,
              compressionGaindB⟩ = 0)) := by
  refine ⟨?_, ?_, ?_⟩
  · intro E mode hE
    simp only [Java_io_spokestack_spokestack_webrtc_VoiceActivityDetector_create]
    by_cases h0 : E.WebRtcVad_Create.1 = 0
    · by_cases h1 : E.WebRtcVad_Init E.WebRtcVad_Create.2 = 0
      · by_cases h2 : E.WebRtcVad_set_mode E.WebRtcVad_Create.2 mode = 0
        · simp [h0, h1, h2]
        · simp [h0, h1, h2]
      · simp [h0, h1]
    · simp [h0, hE h0]
  · intro E sampleRate policy hE
    simp only [Java_io_spokestack_spokestack_webrtc_AcousticNoiseSuppressor_create]
    by_cases h0 : E.WebRtcNsx_Create.1 = 0
    · by_cases h1 : E.WebRtcNsx_Init E.WebRtcNsx_Create.2 sampleRate = 0
      · by_cases h2 : E.WebRtcNsx_set_policy E.WebRtcNsx_Create.2 policy = 0
        · simp [h0, h1, h2]
        · simp [h0, h1, h2]
      · simp [h0, h1]
    · simp [h0, hE h0]
  · intro E rate targetLeveldBFS compressionGaindB limiterEnable hE
    simp only [Java_io_spokestack_spokestack_webrtc_AutomaticGainControl_create]
    by_cases h0 : E.WebRtcAgc_Create.1 = 0
    · by_cases h1 : E.WebRtcAgc_Init E.WebRtcAgc_Create.2 0 100 kAgcModeFixedDigital rate = 0
      · by_cases h2 : E.WebRtcAgc_set_config E.WebRtcAgc_Create.2
            ⟨targetLeveldBFS, if limiterEnable then kAgcTrue else kAgcFalse,
              compressionGaindB⟩ = 0
        · simp [h0, h1, h2]
        · simp [h0, h1, h2]
      · simp [h0, h1]
    · simp [h0, hE h0]

/-- Witness for C1: concrete engines whose initialisation or configuration
step fails; the wrappers return the sentinel and free the allocated
engine. -/
theorem create_all_or_nothing_witness :
    ((Java_io_spokestack_spokestack_webrtc_VoiceActivityDetector_create
        vadInitFailEngine 1).1 = 0 ∧
      VadEvent.free 7 ∈ (Java_io_spokestack_spokestack_webrtc_VoiceActivityDetector_create
        vadInitFailEngine 1).2) ∧
    ((Java_io_spokestack_spokestack_webrtc_AcousticNoiseSuppressor_create
        ansPolicyFailEngine 16000 1).1 = 0 ∧
      AnsEvent.free 9 ∈ (Java_io_spokestack_spokestack_webrtc_AcousticNoiseSuppressor_create
        ansPolicyFailEngine 16000 1).2) ∧
    ((Java_io_spokestack_spokestack_webrtc_AutomaticGainControl_create
        agcCfgFailEngine 16000 9 12 true).1 = 0 ∧
      AgcEvent.free 5 ∈ (Java_io_spokestack_spokestack_webrtc_AutomaticGainControl_create
        agcCfgFailEngine 16000 9 12 true).2) := by
  have hv := (create_all_or_nothing.1 vadInitFailEngine 1
    (fun hc => absurd rfl hc)).1 (Or.inr (Or.inl (by decide)))
  have ha := (create_all_or_nothing.2.1 ansPolicyFailEngine 16000 1
    (fun hc => absurd rfl hc)).1 (Or.inr (Or.inr (by decide)))
  have hg := (create_all_or_nothing.2.2 agcCfgFailEngine 16000 9 12 true
    (fun hc => absurd rfl hc)).1 (Or.inr (Or.inr (by decide)))
  exact ⟨⟨hv.1, hv.2 rfl⟩, ⟨ha.1, ha.2 rfl⟩, ⟨hg.1, hg.2 rfl⟩⟩

/-- Counterexample to C2 as stated: with a libfvad engine whose allocation
returns pointer 5 and whose mode setter fails with status -1, the legacy
VADTrigger create returns handle 5, not the failure sentinel 0, and its
engine-call trace is exactly the three calls with no free: a failing
sub-step neither aborts creation nor frees the engine. -/
theorem vadtrigger_create_ignores_failures :
    (Java_com_pylon_spokestack_libfvad_VADTrigger_create fvadModeFailEngine 2 8000).2 =
      [FvadEvent.newEngine 5, FvadEvent.setMode 5 2 (-1), FvadEvent.setSampleRate 5 8000 0] ∧
    (Java_com_pylon_spokestack_libfvad_VADTrigger_create fvadModeFailEngine 2 8000).1 = 5 ∧
    ¬ (Java_com_pylon_spokestack_libfvad_VADTrigger_create fvadModeFailEngine 2 8000).1 = 0 := by
  refine ⟨rfl, rfl, ?_⟩
  decide

/-- Claim C2 as amended: the second VAD variant fixes the sample rate at
creation time (the rate is applied by fvad_set_sample_rate during create
and the process call passes no rate), and its process call is behaviorally
identical to the primary binding (frame length in bytes divided by two,
engine classification returned unchanged, memory untouched); but its
create performs no status checking at all: the mode and sample-rate setter
statuses are ignored, nothing is ever freed, and the pointer returned by
fvad_new is returned unconditionally, so the failure sentinel appears only
when the allocation itself returned null. -/
theorem vadtrigger_create_unchecked :
    (∀ (E : FvadEngine) (mode rate : Int),
      Java_com_pylon_spokestack_libfvad_VADTrigger_create E mode rate =
        (E.fvad_new,
         [FvadEvent.newEngine E.fvad_new,
          FvadEvent.setMode E.fvad_new mode (E.fvad_set_mode E.fvad_new mode),
          FvadEvent.setSampleRate E.fvad_new rate
            (E.fvad_set_sample_rate E.fvad_new rate)])) ∧
    (∀ (E : FvadEngine) (vad : Nat) (mem : Mem) (base : Nat) (length : Int),
      Java_com_pylon_spokestack_libfvad_VADTrigger_process E vad mem base length =
        (E.fvad_process vad mem base (Int.tdiv length 2), mem)) :=
  ⟨fun _ _ _ => rfl, fun _ _ _ _ _ => rfl⟩

/-- Claim C3: the AutomaticGainControl process operation reads its mic
level estimate from, and writes the updated estimate back to, the single
process-wide module variable shared by all AGC handles (first conjunct,
for every engine, state and handle); consequently, for two distinct
handles 1 and 2, the result of a process call on handle 2 can depend on a
process call previously made through handle 1 (second conjunct, on an
engine that reports the incoming level and bumps it by one). -/
theorem agc_process_shared_miclevel :
    (∀ (E : AgcEngine) (g : AgcGlobals) (agc : Nat) (mem : Mem) (base : Nat) (length : Int),
      Java_io_spokestack_spokestack_webrtc_AutomaticGainControl_process E g agc mem base length =
        ((E.WebRtcAgc_Process agc mem base none (Int.tdiv length 2) base none
            g.miclevel 0).status,
         ⟨(E.WebRtcAgc_Process agc mem base none (Int.tdiv length 2) base none
            g.miclevel 0).outMicLevel⟩,
         (E.WebRtcAgc_Process agc mem base none (Int.tdiv length 2) base none
            g.miclevel 0).mem)) ∧
    (Java_io_spokestack_spokestack_webrtc_AutomaticGainControl_process agcLevelEngine
        (Java_io_spokestack_spokestack_webrtc_AutomaticGainControl_process agcLevelEngine
          agcGlobalsInit 1 memZero 0 320).2.1 2 memZero 0 320).1 ≠
      (Java_io_spokestack_spokestack_webrtc_AutomaticGainControl_process agcLevelEngine
        agcGlobalsInit 2 memZero 0 320).1 := by
  refine ⟨fun _ _ _ _ _ _ => rfl, ?_⟩
  decide

/-- Claim C4: every VoiceActivityDetector process call converts the frame
length in bytes to a sample count by dividing by two (C integer division)
and returns the engine classification unchanged: it yields 1 exactly when
the engine classified the frame as voiced speech, 0 exactly when it did
not, and -1 exactly when the engine reported an error. -/
theorem vad_process_passthrough :
    ∀ (E : VadEngine) (vad : Nat) (rate : Int) (mem : Mem) (base : Nat) (length : Int),
      (Java_io_spokestack_spokestack_webrtc_VoiceActivityDetector_process
          E vad rate mem base length).1 =
        E.WebRtcVad_Process vad rate mem base (Int.tdiv length 2) ∧
      ((Java_io_spokestack_spokestack_webrtc_VoiceActivityDetector_process
          E vad rate mem base length).1 = 1 ↔
        E.WebRtcVad_Process vad rate mem base (Int.tdiv length 2) = 1) ∧
      ((Java_io_spokestack_spokestack_webrtc_VoiceActivityDetector_process
          E vad rate mem base length).1 = 0 ↔
        E.WebRtcVad_Process vad rate mem base (Int.tdiv length 2) = 0) ∧
      ((Java_io_spokestack_spokestack_webrtc_VoiceActivityDetector_process
          E vad rate mem base length).1 = -1 ↔
        E.WebRtcVad_Process vad rate mem base (Int.tdiv length 2) = -1) :=
  fun _ _ _ _ _ _ => ⟨rfl, Iff.rfl, Iff.rfl, Iff.rfl⟩

/-- Claim C5: every AcousticNoiseSuppressor process call advances the
frame pointer by the byte offset converted to a sample-element offset
(offset divided by the 2-byte sample size, here stated for offsets in the
non-negative jint range) and invokes the engine with that same address as
both input and output frame, NULL high-band pointers, returning the engine
status unchanged; in-place processing over the addressed samples is
exactly the engine call with coinciding input and output addresses. -/
theorem ans_process_offset_inplace :
    ∀ (E : AnsEngine) (ans : Nat) (mem : Mem) (base : Nat) (offset : Int),
      0 ≤ offset → offset < 2 ^ 31 →
      Java_io_spokestack_spokestack_webrtc_AcousticNoiseSuppressor_process
          E ans mem base offset =
        E.WebRtcNsx_Process ans mem (some (base + offset.toNat / 2)) none
          (some (base + offset.toNat / 2)) none := by
  intro E ans mem base offset h0 h1
  have h2 : offset.emod (2 ^ 64) = offset := Int.emod_eq_of_lt h0 (lt_trans h1 (by norm_num))
  have he : ansOffsetElems offset = offset.toNat / 2 := by
    unfold ansOffsetElems
    rw [h2]
  simp only [Java_io_spokestack_spokestack_webrtc_AcousticNoiseSuppressor_process, he]

/-- Witness for C5: the offset 4 on base address 10 advances the frame to
element 12 for both the input and the output pointer. -/
theorem ans_process_offset_inplace_witness :
    (0 : Int) ≤ 4 ∧ (4 : Int) < 2 ^ 31 ∧
    Java_io_spokestack_spokestack_webrtc_AcousticNoiseSuppressor_process
        ansOkEngine 3 memZero 10 4 =
      ansOkEngine.WebRtcNsx_Process 3 memZero (some (10 + (4 : Int).toNat / 2)) none
        (some (10 + (4 : Int).toNat / 2)) none :=
  ⟨by decide, by decide,
    ans_process_offset_inplace ansOkEngine 3 memZero 10 4 (by decide) (by decide)⟩

/-- Claim C6: every AutomaticGainControl create call initialises the
engine with the fixed-digital gain mode and the engine-defined default
mic-level range 0..100 — every init event in the trace carries exactly
those constants, whatever the caller passed — and only afterwards applies
the caller target level, compression gain and limiter flag: any
configuration event in the trace is preceded by a successful allocation
and a successful init with those constants, and carries exactly the
caller configuration. -/
theorem agc_create_fixed_mode_then_config :
    ∀ (E : AgcEngine) (rate targetLeveldBFS compressionGaindB : Int) (limiterEnable : Bool),
      (∀ p mn mx md fs st,
        AgcEvent.init p mn mx md fs st ∈
            (Java_io_spokestack_spokestack_webrtc_AutomaticGainControl_create
              E rate targetLeveldBFS compressionGaindB limiterEnable).2 →
          mn = 0 ∧ mx = 100 ∧ md = kAgcModeFixedDigital ∧ fs = rate) ∧
      (∀ p cfg st,
        AgcEvent.setConfig p cfg st ∈
            (Java_io_spokestack_spokestack_webrtc_AutomaticGainControl_create
              E rate targetLeveldBFS compressionGaindB limiterEnable).2 →
          cfg = ⟨targetLeveldBFS, if limiterEnable then kAgcTrue else kAgcFalse,
            compressionGaindB⟩ ∧
          ∃ rest, (Java_io_spokestack_spokestack_webrtc_AutomaticGainControl_create
              E rate targetLeveldBFS compressionGaindB limiterEnable).2 =
            AgcEvent.create 0 p ::
              AgcEvent.init p 0 100 kAgcModeFixedDigital rate 0 ::
                AgcEvent.setConfig p cfg st :: rest) := by
  intro E rate targetLeveldBFS compressionGaindB limiterEnable
  simp only [Java_io_spokestack_spokestack_webrtc_AutomaticGainControl_create]
  by_cases h0 : E.WebRtcAgc_Create.1 = 0
  · by_cases h1 : E.WebRtcAgc_Init E.WebRtcAgc_Create.2 0 100 kAgcModeFixedDigital rate = 0
    · by_cases h2 : E.WebRtcAgc_set_config E.WebRtcAgc_Create.2
          ⟨targetLeveldBFS, if limiterEnable then kAgcTrue else kAgcFalse,
            compressionGaindB⟩ = 0
      · constructor
        · intro p mn mx md fs st hmem
          simp [h0, h1, h2] at hmem
          tauto
        · intro p cfg st hmem
          simp [h0, h1, h2] at hmem
          obtain ⟨hp, hcfg, hst⟩ := hmem
          subst hp; subst hcfg; subst hst
          exact ⟨rfl, [], by simp [h0, h1, h2]⟩
      · constructor
        · intro p mn mx md fs st hmem
          simp [h0, h1, h2] at hmem
          tauto
        · intro p cfg st hmem
          simp [h0, h1, h2] at hmem
          obtain ⟨hp, hcfg, hst⟩ := hmem
          subst hp; subst hcfg; subst hst
          exact ⟨rfl, [AgcEvent.free E.WebRtcAgc_Create.2], by simp [h0, h1, h2]⟩
    · constructor
      · intro p mn mx md fs st hmem
        simp [h0, h1] at hmem
        tauto
      · intro p cfg st hmem
        simp [h0, h1] at hmem
  · constructor
    · intro p mn mx md fs st hmem
      simp [h0] at hmem
    · intro p cfg st hmem
      simp [h0] at hmem

/-- Witness for C6: with an engine for which every step succeeds, the
creation at rate 16000, target 9 dBFS, compression 12 dB, limiter on,
emits the init event with the constants 0, 100, kAgcModeFixedDigital and
only then the configuration event with the caller values. -/
theorem agc_create_fixed_mode_then_config_witness :
    (⟨9, 1, 12⟩ : WebRtcAgc_config_t) =
      ⟨9, if true then kAgcTrue else kAgcFalse, 12⟩ ∧
    (Java_io_spokestack_spokestack_webrtc_AutomaticGainControl_create
        agcOkEngine 16000 9 12 true).2 =
      AgcEvent.create 0 5 :: AgcEvent.init 5 0 100 kAgcModeFixedDigital 16000 0 ::
        AgcEvent.setConfig 5 ⟨9, 1, 12⟩ 0 :: [] := by
  have h := (agc_create_fixed_mode_then_config agcOkEngine 16000 9 12 true).2
    5 ⟨9, 1, 12⟩ 0 (by decide)
  exact ⟨h.1, by decide⟩

/-- Claim C7: processing failures are per-call, never sticky.  The VAD
and ANS wrappers keep no state between calls: the result of the last call
of any sequence is a function of that call alone, whatever happened — or
failed — before (first two conjuncts).  The AGC wrapper threads only the
mic-level estimate: if a process call fails and the engine left the
estimate where it was on that failing call, the module state after the
call is exactly the state before it, so subsequent calls behave as if the
failure had not happened (third conjunct).  No wrapper stores a status
code anywhere. -/
theorem process_failures_not_sticky :
    (∀ (E : VadEngine) (pre : List VadCall) (c : VadCall),
      runVadCalls E (pre ++ [c]) =
        runVadCalls E pre ++
          [(Java_io_spokestack_spokestack_webrtc_VoiceActivityDetector_process
              E c.vad c.rate c.mem c.base c.length).1]) ∧
    (∀ (E : AnsEngine) (pre : List AnsCall) (c : AnsCall),
      runAnsCalls E (pre ++ [c]) =
        runAnsCalls E pre ++
          [(Java_io_spokestack_spokestack_webrtc_AcousticNoiseSuppressor_process
              E c.ans c.mem c.base c.offset).1]) ∧
    (∀ (E : AgcEngine) (g : AgcGlobals) (agc : Nat) (mem : Mem) (base : Nat) (length : Int),
      (Java_io_spokestack_spokestack_webrtc_AutomaticGainControl_process
          E g agc mem base length).1 ≠ 0 →
      (E.WebRtcAgc_Process agc mem base none (Int.tdiv length 2) base none
          g.miclevel 0).outMicLevel = g.miclevel →
      (Java_io_spokestack_spokestack_webrtc_AutomaticGainControl_process
          E g agc mem base length).2.1 = g) := by
  refine ⟨?_, ?_, ?_⟩
  · intro E pre c
    simp [runVadCalls]
  · intro E pre c
    simp [runAnsCalls]
  · intro E g agc mem base length hfail hkeep
    cases g with
    | mk mic => exact congrArg AgcGlobals.mk hkeep

/-- Witness for C7: an AGC engine whose process call fails with status -1
while leaving the mic level untouched; the module state after the failed
call equals the initial state. -/
theorem process_failures_not_sticky_witness :
    (Java_io_spokestack_spokestack_webrtc_AutomaticGainControl_process
        agcErrKeepEngine agcGlobalsInit 1 memZero 0 320).1 ≠ 0 ∧
    (agcErrKeepEngine.WebRtcAgc_Process 1 memZero 0 none (Int.tdiv 320 2) 0 none
        agcGlobalsInit.miclevel 0).outMicLevel = agcGlobalsInit.miclevel ∧
    (Java_io_spokestack_spokestack_webrtc_AutomaticGainControl_process
        agcErrKeepEngine agcGlobalsInit 1 memZero 0 320).2.1 = agcGlobalsInit :=
  ⟨by decide, by decide,
    process_failures_not_sticky.2.2 agcErrKeepEngine agcGlobalsInit 1 memZero 0 320
      (by decide) (by decide)⟩

/-- Claim C8: no process call mutates the frame length or sample rate
(both are passed by value, so the wrappers cannot write them back), and
only sample values within the extent supplied by the caller are touched.
The VAD wrapper passes the frame through a const pointer and leaves all
memory unchanged, unconditionally.  For AGC and ANS the wrapper performs
no writes of its own and hands the engine exactly the caller extent: the
frame address with length / 2 samples for AGC, the offset-advanced
address for ANS; whenever the engine leaves an address outside that
extent unchanged — the engine contract — the whole call leaves it
unchanged. -/
theorem process_extent_framing :
    (∀ (E : VadEngine) (vad : Nat) (rate : Int) (mem : Mem) (base : Nat) (length : Int),
      (Java_io_spokestack_spokestack_webrtc_VoiceActivityDetector_process
          E vad rate mem base length).2 = mem) ∧
    (∀ (E : AgcEngine) (g : AgcGlobals) (agc : Nat) (mem : Mem) (base : Nat) (length : Int),
      (∀ a : Nat, a < base ∨ base + (Int.tdiv length 2).toNat ≤ a →
        (E.WebRtcAgc_Process agc mem base none (Int.tdiv length 2) base none
            g.miclevel 0).mem a = mem a) →
      ∀ a : Nat, a < base ∨ base + (Int.tdiv length 2).toNat ≤ a →
        (Java_io_spokestack_spokestack_webrtc_AutomaticGainControl_process
            E g agc mem base length).2.2 a = mem a) ∧
    (∀ (E : AnsEngine) (ans : Nat) (mem : Mem) (base : Nat) (offset : Int),
      (∀ a : Nat, a < base + ansOffsetElems offset →
        (E.WebRtcNsx_Process ans mem (some (base + ansOffsetElems offset)) none
            (some (base + ansOffsetElems offset)) none).2 a = mem a) →
      ∀ a : Nat, a < base + ansOffsetElems offset →
        (Java_io_spokestack_spokestack_webrtc_AcousticNoiseSuppressor_process
            E ans mem base offset).2 a = mem a) :=
  ⟨fun _ _ _ _ _ _ => rfl,
   fun _ _ _ _ _ _ h a ha => h a ha,
   fun _ _ _ _ _ h a ha => h a ha⟩

/-- Witness for C8: with engines that leave memory unchanged, the sample
below the supplied extent is untouched by an AGC call on base 4 with
length 6 and by an ANS call on base 4 with offset 2. -/
theorem process_extent_framing_witness :
    (Java_io_spokestack_spokestack_webrtc_AutomaticGainControl_process
        agcOkEngine agcGlobalsInit 1 memZero 4 6).2.2 0 = memZero 0 ∧
    (Java_io_spokestack_spokestack_webrtc_AcousticNoiseSuppressor_process
        ansOkEngine 1 memZero 4 2).2 0 = memZero 0 :=
  ⟨process_extent_framing.2.1 agcOkEngine agcGlobalsInit 1 memZero 4 6
      (fun _ _ => rfl) 0 (Or.inl (by decide)),
   process_extent_framing.2.2 ansOkEngine 1 memZero 4 2
      (fun _ _ => rfl) 0 (by decide)⟩

/-- Truncating division of an odd non-negative jint by two ignores the
trailing odd unit. -/
theorem tdiv_two_pred (n : Int) (h : Odd n) (h0 : 0 ≤ n) :
    Int.tdiv n 2 = Int.tdiv (n - 1) 2 := by
  obtain ⟨k, hk⟩ := h
  rw [Int.tdiv_eq_ediv h0 (by norm_num), Int.tdiv_eq_ediv (by omega) (by norm_num)]
  omega

/-- The ANS pointer advance for an odd non-negative jint offset lands on
the preceding even byte boundary. -/
theorem ansOffsetElems_pred (offset : Int) (h : Odd offset) (h0 : 0 ≤ offset)
    (h1 : offset < 2 ^ 31) : ansOffsetElems offset = ansOffsetElems (offset - 1) := by
  obtain ⟨k, hk⟩ := h
  unfold ansOffsetElems
  have e1 : offset.emod (2 ^ 64) = offset := Int.emod_eq_of_lt h0 (by omega)
  have e2 : (offset - 1).emod (2 ^ 64) = offset - 1 :=
    Int.emod_eq_of_lt (by omega) (by omega)
  rw [e1, e2]
  omega

/-- Claim C9: byte-to-sample conversions truncate: an odd lengthBytes in
VAD or AGC yields the floor sample count, so the call is indistinguishable
from the call on the even length one byte shorter, the trailing odd byte
silently ignored and no error introduced by the wrapper; an odd
offsetBytes in ANS advances the pointer to the preceding even byte
boundary, so the call is indistinguishable from the call at offset one
byte lower.  For non-negative lengths the truncating division is the
floor division, so the sample count is floor of lengthBytes over two. -/
theorem byte_conversions_truncate :
    (∀ (E : VadEngine) (vad : Nat) (rate : Int) (mem : Mem) (base : Nat) (length : Int),
      Odd length → 0 ≤ length →
      Java_io_spokestack_spokestack_webrtc_VoiceActivityDetector_process
          E vad rate mem base length =
        Java_io_spokestack_spokestack_webrtc_VoiceActivityDetector_process
          E vad rate mem base (length - 1)) ∧
    (∀ (E : AgcEngine) (g : AgcGlobals) (agc : Nat) (mem : Mem) (base : Nat) (length : Int),
      Odd length → 0 ≤ length →
      Java_io_spokestack_spokestack_webrtc_AutomaticGainControl_process
          E g agc mem base length =
        Java_io_spokestack_spokestack_webrtc_AutomaticGainControl_process
          E g agc mem base (length - 1)) ∧
    (∀ (E : AnsEngine) (ans : Nat) (mem : Mem) (base : Nat) (offset : Int),
      Odd offset → 0 ≤ offset → offset < 2 ^ 31 →
      Java_io_spokestack_spokestack_webrtc_AcousticNoiseSuppressor_process
          E ans mem base offset =
        Java_io_spokestack_spokestack_webrtc_AcousticNoiseSuppressor_process
          E ans mem base (offset - 1)) ∧
    (∀ length : Int, 0 ≤ length → Int.tdiv length 2 = Int.fdiv length 2) := by
  refine ⟨?_, ?_, ?_, ?_⟩
  · intro E vad rate mem base length h h0
    simp only [Java_io_spokestack_spokestack_webrtc_VoiceActivityDetector_process]
    rw [tdiv_two_pred length h h0]
  · intro E g agc mem base length h h0
    simp only [Java_io_spokestack_spokestack_webrtc_AutomaticGainControl_process]
    rw [tdiv_two_pred length h h0]
  · intro E ans mem base offset h h0 h1
    simp only [Java_io_spokestack_spokestack_webrtc_AcousticNoiseSuppressor_process]
    rw [ansOffsetElems_pred offset h h0 h1]
  · intro length h0
    rw [Int.tdiv_eq_ediv h0 (by norm_num), Int.fdiv_eq_ediv length (by norm_num)]

/-- Witness for C9: an odd length 7 gives the same VAD call as length 6. -/
theorem byte_conversions_truncate_witness :
    Odd (7 : Int) ∧ (0 : Int) ≤ 7 ∧
    Java_io_spokestack_spokestack_webrtc_VoiceActivityDetector_process
        vadInitFailEngine 7 8000 memZero 0 7 =
      Java_io_spokestack_spokestack_webrtc_VoiceActivityDetector_process
        vadInitFailEngine 7 8000 memZero 0 6 :=
  ⟨⟨3, by norm_num⟩, by decide,
    byte_conversions_truncate.1 vadInitFailEngine 7 8000 memZero 0 7
      ⟨3, by norm_num⟩ (by decide)⟩

/-- A handle lifecycle with no process call: create, destroy, create
again, destroy again. -/
def lifecycleOps : List AgcOp :=
  [AgcOp.create 16000 9 12 true, AgcOp.destroy 5,
   AgcOp.create 8000 3 9 false, AgcOp.destroy 5]

/-- Claim C10: the process-wide AGC mic-level estimate starts at 128 when
the module is loaded, and only process calls ever modify it: over any
sequence of wrapper operations containing no process call — creates and
destroys in any order, including full handle lifecycles — the module
state is unchanged, for every engine and every starting state. -/
theorem miclevel_persists_across_lifecycles :
    agcGlobalsInit.miclevel = 128 ∧
    ∀ (E : AgcEngine) (ops : List AgcOp) (g : AgcGlobals),
      (∀ op ∈ ops, op.isProc = false) → runAgcOps E ops g = g := by
  refine ⟨rfl, ?_⟩
  intro E ops
  induction ops with
  | nil => intro g _; rfl
  | cons op tl ih =>
    intro g h
    have hop := h op (List.mem_cons_self op tl)
    have htl : ∀ o ∈ tl, o.isProc = false := fun o ho => h o (List.mem_cons_of_mem op ho)
    cases op with
    | create rate t c l => simpa [runAgcOps, agcStep] using ih g htl
    | destroy a => simpa [runAgcOps, agcStep] using ih g htl
    | process a m b len => simp [AgcOp.isProc] at hop

/-- Witness for C10: running a full create/destroy/create/destroy
lifecycle with no process call leaves the module state at its initial
value 128. -/
theorem miclevel_persists_across_lifecycles_witness :
    runAgcOps agcOkEngine lifecycleOps agcGlobalsInit = agcGlobalsInit := by
  have hops : ∀ op ∈ lifecycleOps, op.isProc = false := by
    intro op hop
    simp only [lifecycleOps, List.mem_cons, List.not_mem_nil, or_false] at hop
    rcases hop with h | h | h | h <;> subst h <;> rfl
  exact miclevel_persists_across_lifecycles.2 agcOkEngine lifecycleOps agcGlobalsInit hops

end Spokestack
